import Mathlib

/-!
Verification development for the healthcheck audit server.

The definitions below are a shallow embedding of `server/audit-server.js`:
the rule-based scoring engine (`scoreAspCounts`), the rendered-DOM census
(the pure `page.evaluate` body of `getRenderedAspCounts`), the static HTML
census (`buildAspPerfCounts`), and the URL validation performed by the
`GET /api/audit` and `GET /api/asp-recommendations` handlers.

JavaScript idioms are embedded as follows: machine numbers that are only
ever non-negative integer counts become `Nat` (point deductions and the
score become `Int`); `Array.prototype.sort` with a numeric comparator is
the stable `List.mergeSort`; `new Set(xs)` insertion-order deduplication is
`List.eraseDups`; `Array.prototype.reduce((a, b) => a + b, 0)` is
`List.foldl (· + ·) 0`; `Math.max/Math.min` are `max`/`min`.
-/

namespace Healthcheck

/-- Severity levels used by the scoring engine (the strings `good`, `warn`, `bad`). -/
inductive Severity where
  | good
  | warn
  | bad
deriving DecidableEq

/-- The `value` field of a finding is a number for some dimensions and a formatted string for others. -/
inductive FValue where
  | num (n : Nat)
  | str (s : String)
deriving DecidableEq

/-- One scored dimension result, as built by `makeFinding` in the source. The
`threshold` object is embedded as an association list of its named numeric fields. -/
structure Finding where
  key : String
  label : String
  value : FValue
  severity : Severity
  points : Int
  message : String
  threshold : List (String × Nat)
deriving DecidableEq

/-- Carousel totals consumed by the scoring engine (`counts.carousels.count`, `counts.carousels.slidesTotal`). -/
structure CarouselTotals where
  count : Nat
  slidesTotal : Nat
deriving DecidableEq

/-- Testimonial totals consumed by the scoring engine. -/
structure TestimonialTotals where
  count : Nat
  itemsTotal : Nat
deriving DecidableEq

/-- Library totals consumed by the scoring engine. -/
structure LibraryTotals where
  containers : Nat
  typesTotal : Nat
deriving DecidableEq

/-- Media counts consumed by the scoring engine. -/
structure MediaCounts where
  images : Nat
  videos : Nat
  iframes : Nat
deriving DecidableEq

/-- Ad-space total consumed by the scoring engine (`counts.adSpace.total`). -/
structure AdTotals where
  total : Nat
deriving DecidableEq

/-- The normalised census counts handed to `scoreAspCounts` (sections already
collapsed to a scalar, as done by the `/api/asp-recommendations` handler). -/
structure ScoreInput where
  sections : Nat
  carousels : CarouselTotals
  testimonials : TestimonialTotals
  libraries : LibraryTotals
  media : MediaCounts
  adSpace : AdTotals
deriving DecidableEq

/-- The `clamp` helper of the source: `Math.max(min, Math.min(max, n))`. -/
def clampInt (n lo hi : Int) : Int :=
  max lo (min hi n)

/-- The `severityFromScore` helper of the source. -/
def severityFromScore (score : Int) : Severity :=
  if score ≥ 85 then .good
  else if score ≥ 65 then .warn
  else .bad

/-- The overall label computed inline in `scoreAspCounts`. -/
def overallLabel (score : Int) : String :=
  if score ≥ 85 then "Good"
  else if score ≥ 65 then "Needs attention"
  else "Heavy"

/-- Sections dimension of `scoreAspCounts`: the finding pushed for `counts.sections`. -/
def sectionsFinding (s : Nat) : Finding :=
  if s > 24 then
    { key := "sections", label := "Sections (.section)", value := .num s,
      severity := .bad, points := -18,
      threshold := [("warnAbove", 16), ("badAbove", 24)],
      message := "High number of sections can increase DOM complexity and layout work." }
  else if s > 16 then
    { key := "sections", label := "Sections (.section)", value := .num s,
      severity := .warn, points := -10,
      threshold := [("warnAbove", 16), ("badAbove", 24)],
      message := "Consider reducing sections or combining smaller blocks." }
  else
    { key := "sections", label := "Sections (.section)", value := .num s,
      severity := .good, points := 0,
      threshold := [("warnAbove", 16), ("badAbove", 24)],
      message := "Section count looks reasonable." }

/-- Deduction applied by the sections branch (`score -= 18` / `score -= 10`). -/
def sectionsDed (s : Nat) : Nat :=
  if s > 24 then 18 else if s > 16 then 10 else 0

/-- Carousels dimension of `scoreAspCounts` (carousel count tiers). -/
def carouselsFinding (cnt slides : Nat) : Finding :=
  if cnt ≥ 3 then
    { key := "carousels", label := "Carousels (.w-icatcher-slider)",
      value := .str s!"{cnt} carousels / {slides} slides",
      severity := .bad, points := -15,
      threshold := [("warnAbove", 1), ("badAtOrAbove", 3)],
      message := "Multiple carousels can significantly increase JS and image load." }
  else if cnt ≥ 2 then
    { key := "carousels", label := "Carousels (.w-icatcher-slider)",
      value := .str s!"{cnt} carousels / {slides} slides",
      severity := .warn, points := -10,
      threshold := [("warnAbove", 1), ("badAtOrAbove", 3)],
      message := "Limit carousels where possible, and avoid heavy slides above the fold." }
  else
    { key := "carousels", label := "Carousels (.w-icatcher-slider)",
      value := .str s!"{cnt} carousels / {slides} slides",
      severity := .good, points := 0,
      threshold := [("warnAbove", 1), ("badAtOrAbove", 3)],
      message := "Carousel usage looks controlled." }

/-- Deduction applied by the carousel-count branch. -/
def carouselsDed (cnt : Nat) : Nat :=
  if cnt ≥ 3 then 15 else if cnt ≥ 2 then 10 else 0

/-- Carousel-slide-total finding; in the source this is pushed only when `carouselSlides > 16`. -/
def carouselSlidesFinding (slides : Nat) : Finding :=
  { key := "carouselSlides", label := "Carousel slides total", value := .num slides,
    severity := if slides > 24 then .bad else .warn, points := -8,
    threshold := [("warnAbove", 16), ("badAbove", 24)],
    message := "Large numbers of slides often means many images and heavy layout work." }

/-- Deduction applied by the carousel-slide-total branch. -/
def carouselSlidesDed (slides : Nat) : Nat :=
  if slides > 16 then 8 else 0

/-- Testimonials dimension of `scoreAspCounts`. -/
def testimonialsFinding (blocks items : Nat) : Finding :=
  if blocks ≥ 3 ∨ items > 18 then
    { key := "testimonials", label := "Testimonials (.w-testimonials)",
      value := .str s!"{blocks} blocks / {items} items",
      severity := .warn, points := -10,
      threshold := [("warnItemsAbove", 12), ("badItemsAbove", 18)],
      message := "Consider limiting testimonial items and lazy-loading offscreen content." }
  else
    { key := "testimonials", label := "Testimonials (.w-testimonials)",
      value := .str s!"{blocks} blocks / {items} items",
      severity := .good, points := 0,
      threshold := [("warnItemsAbove", 12), ("badItemsAbove", 18)],
      message := "Testimonials look fine at a glance." }

/-- Deduction applied by the testimonials branch. -/
def testimonialsDed (blocks items : Nat) : Nat :=
  if blocks ≥ 3 ∨ items > 18 then 10 else 0

/-- Libraries dimension of `scoreAspCounts`. -/
def librariesFinding (containers typesTotal : Nat) : Finding :=
  if containers > 1 ∨ typesTotal ≥ 3 then
    { key := "libraries", label := "Library components",
      value := .str s!"{containers} containers / {typesTotal} types",
      severity := if typesTotal ≥ 4 then .bad else .warn, points := -10,
      threshold := [("warnTypesAtOrAbove", 3), ("badTypesAtOrAbove", 4)],
      message := "Multiple library modules can increase DOM and resource load depending on implementation." }
  else
    { key := "libraries", label := "Library components",
      value := .str s!"{containers} containers / {typesTotal} types",
      severity := .good, points := 0,
      threshold := [("warnTypesAtOrAbove", 3), ("badTypesAtOrAbove", 4)],
      message := "Library usage looks reasonable." }

/-- Deduction applied by the libraries branch. -/
def librariesDed (containers typesTotal : Nat) : Nat :=
  if containers > 1 ∨ typesTotal ≥ 3 then 10 else 0

/-- Images dimension of `scoreAspCounts`. -/
def imagesFinding (n : Nat) : Finding :=
  if n > 60 then
    { key := "images", label := "Images (<img>)", value := .num n,
      severity := if n > 90 then .bad else .warn, points := -12,
      threshold := [("warnAbove", 40), ("badAbove", 60)],
      message := "High image counts can hurt LCP and increase network cost. Ensure compression, sizing, and lazy-loading." }
  else if n > 40 then
    { key := "images", label := "Images (<img>)", value := .num n,
      severity := .warn, points := -7,
      threshold := [("warnAbove", 40), ("badAbove", 60)],
      message := "Consider reducing image count, using responsive images, and lazy-loading below the fold." }
  else
    { key := "images", label := "Images (<img>)", value := .num n,
      severity := .good, points := 0,
      threshold := [("warnAbove", 40), ("badAbove", 60)],
      message := "Image count looks fine." }

/-- Deduction applied by the images branch. -/
def imagesDed (n : Nat) : Nat :=
  if n > 60 then 12 else if n > 40 then 7 else 0

/-- Videos dimension of `scoreAspCounts`. -/
def videosFinding (n : Nat) : Finding :=
  if n ≥ 3 then
    { key := "videos", label := "Videos (<video>)", value := .num n,
      severity := if n ≥ 5 then .bad else .warn, points := -10,
      threshold := [("warnAtOrAbove", 3), ("badAtOrAbove", 5)],
      message := "Multiple videos can be heavy. Use poster images, defer loading, and avoid autoplay." }
  else
    { key := "videos", label := "Videos (<video>)", value := .num n,
      severity := .good, points := 0,
      threshold := [("warnAtOrAbove", 3), ("badAtOrAbove", 5)],
      message := "Video usage looks reasonable." }

/-- Deduction applied by the videos branch. -/
def videosDed (n : Nat) : Nat :=
  if n ≥ 3 then 10 else 0

/-- Iframes dimension of `scoreAspCounts`. Note that the first branch records a
different `warnAtOrAbove` threshold (4) than the other branches (2), exactly as in the source. -/
def iframesFinding (n : Nat) : Finding :=
  if n ≥ 4 then
    { key := "iframes", label := "Iframes (<iframe>)", value := .num n,
      severity := if n ≥ 6 then .bad else .warn, points := -15,
      threshold := [("warnAtOrAbove", 4), ("badAtOrAbove", 6)],
      message := "Iframes often add third-party JS and can slow down rendering. Defer, lazy-load, and minimise." }
  else if n ≥ 2 then
    { key := "iframes", label := "Iframes (<iframe>)", value := .num n,
      severity := .warn, points := -8,
      threshold := [("warnAtOrAbove", 2), ("badAtOrAbove", 6)],
      message := "Consider lazy-loading iframes and reviewing third-party impact." }
  else
    { key := "iframes", label := "Iframes (<iframe>)", value := .num n,
      severity := .good, points := 0,
      threshold := [("warnAtOrAbove", 2), ("badAtOrAbove", 6)],
      message := "Iframe usage looks fine." }

/-- Deduction applied by the iframes branch. -/
def iframesDed (n : Nat) : Nat :=
  if n ≥ 4 then 15 else if n ≥ 2 then 8 else 0

/-- Ad-slot dimension of `scoreAspCounts`. -/
def adSpaceFinding (t : Nat) : Finding :=
  if t ≥ 5 then
    { key := "adSpace", label := "Ad slots (skyscrapers)", value := .num t,
      severity := .bad, points := -15,
      threshold := [("warnAtOrAbove", 3), ("badAtOrAbove", 5)],
      message := "Lots of ad slots usually means more scripts and requests. Consider reducing or deferring below-the-fold slots." }
  else if t ≥ 3 then
    { key := "adSpace", label := "Ad slots (skyscrapers)", value := .num t,
      severity := .warn, points := -8,
      threshold := [("warnAtOrAbove", 3), ("badAtOrAbove", 5)],
      message := "Moderate ad density. Ensure ads are lazy-loaded and do not block rendering." }
  else
    { key := "adSpace", label := "Ad slots (skyscrapers)", value := .num t,
      severity := .good, points := 0,
      threshold := [("warnAtOrAbove", 3), ("badAtOrAbove", 5)],
      message := "Ad slot usage looks controlled." }

/-- Deduction applied by the ad-slot branch. -/
def adSpaceDed (t : Nat) : Nat :=
  if t ≥ 5 then 15 else if t ≥ 3 then 8 else 0

/-- The findings array built by `scoreAspCounts`, in push order. The
carousel-slide-total finding is appended only when `carouselSlides > 16`,
mirroring the guarded `findings.push` in the source. -/
def scoreFindings (c : ScoreInput) : List Finding :=
  [sectionsFinding c.sections,
   carouselsFinding c.carousels.count c.carousels.slidesTotal]
  ++ (if c.carousels.slidesTotal > 16 then [carouselSlidesFinding c.carousels.slidesTotal] else [])
  ++ [testimonialsFinding c.testimonials.count c.testimonials.itemsTotal,
      librariesFinding c.libraries.containers c.libraries.typesTotal,
      imagesFinding c.media.images,
      videosFinding c.media.videos,
      iframesFinding c.media.iframes,
      adSpaceFinding c.adSpace.total]

/-- The total of all `score -= ...` statements executed by `scoreAspCounts`. -/
def totalDeduction (c : ScoreInput) : Nat :=
  sectionsDed c.sections
  + carouselsDed c.carousels.count
  + carouselSlidesDed c.carousels.slidesTotal
  + testimonialsDed c.testimonials.count c.testimonials.itemsTotal
  + librariesDed c.libraries.containers c.libraries.typesTotal
  + imagesDed c.media.images
  + videosDed c.media.videos
  + iframesDed c.media.iframes
  + adSpaceDed c.adSpace.total

/-- The overall block of the score result. -/
structure Overall where
  score : Int
  severity : Severity
  label : String
deriving DecidableEq

/-- One recommendation entry. -/
structure Recommendation where
  key : String
  title : String
  action : String
deriving DecidableEq

/-- The `switch (f.key)` mapping a finding to its fixed recommendation template;
the default case falls back to the finding label and message. -/
def recTemplate (f : Finding) : Recommendation :=
  match f.key with
  | "sections" =>
    { key := f.key, title := "Reduce overall page complexity",
      action := "Combine or remove low-value sections, especially below the fold. Consider collapsing repeated blocks into tabs/accordions." }
  | "carousels" =>
    { key := f.key, title := "Keep carousels lean",
      action := "Limit to 1 carousel per page where possible. Reduce slide count, lazy-load images, and avoid heavy slides above the fold." }
  | "carouselSlides" =>
    { key := f.key, title := "Keep carousels lean",
      action := "Limit to 1 carousel per page where possible. Reduce slide count, lazy-load images, and avoid heavy slides above the fold." }
  | "testimonials" =>
    { key := f.key, title := "Trim testimonial payload",
      action := "Reduce the number of testimonial items shown initially. Defer additional items or paginate." }
  | "libraries" =>
    { key := f.key, title := "Review library modules",
      action := "Avoid rendering multiple library lists at once. Consider loading library content on-demand." }
  | "images" =>
    { key := f.key, title := "Optimise images",
      action := "Use responsive images (srcset/sizes), modern formats, compression, and lazy-loading. Ensure LCP image is prioritised." }
  | "videos" =>
    { key := f.key, title := "Defer and optimise videos",
      action := "Use poster images, avoid autoplay, and defer loading until interaction or near viewport." }
  | "iframes" =>
    { key := f.key, title := "Minimise third-party embeds",
      action := "Lazy-load iframes, remove non-essential embeds, and audit third-party scripts for impact." }
  | "adSpace" =>
    { key := f.key, title := "Reduce ad density",
      action := "Limit the number of ad slots on a single page. Ensure ads do not block rendering and are lazy-loaded below the fold." }
  | _ =>
    { key := f.key, title := f.label, action := f.message }

/-- The non-good findings sorted ascending by points, as computed by
`findings.filter(...).sort((a, b) => a.points - b.points)`; the JavaScript sort
is stable, so it is embedded as the stable `List.mergeSort`. -/
def nonGoodSorted (c : ScoreInput) : List Finding :=
  ((scoreFindings c).filter (fun f => f.severity != Severity.good)).mergeSort
    (fun a b => a.points ≤ b.points)

/-- The value returned by `scoreAspCounts`. -/
structure ScoreResult where
  overall : Overall
  findings : List Finding
  recommendations : List Recommendation
deriving DecidableEq

/-- The scoring engine `scoreAspCounts`: deductions accumulate by simple
subtraction from 100, the total is clamped to `[0, 100]` once at the end, and
recommendations are the sorted non-good findings mapped through the template table. -/
def scoreAspCounts (c : ScoreInput) : ScoreResult :=
  let score := clampInt (100 - (totalDeduction c : Int)) 0 100
  { overall := { score := score, severity := severityFromScore score, label := overallLabel score },
    findings := scoreFindings c,
    recommendations := (nonGoodSorted c).map recTemplate }

/-- Lookup of the finding for a given dimension key in a score result. -/
def getFinding (r : ScoreResult) (k : String) : Option Finding :=
  r.findings.find? (fun f => f.key == k)

/-!
DOM model. An element carries a tag name, a class list, an attribute list and
child elements; a document is an element with tag `#document` whose strict
descendants are the page elements. `querySelectorAll` over the class and tag
selectors used by the census code becomes a filter over the pre-order
descendant list, and `querySelector` its first match.
-/

/-- A DOM element (or the document root, with tag `#document`). -/
inductive Elem where
  | mk (tag : String) (classes : List String) (attrs : List (String × String)) (children : List Elem)

mutual

def Elem.decEq : (a b : Elem) → Decidable (a = b)
  | .mk t1 c1 a1 ch1, .mk t2 c2 a2 ch2 =>
    if ht : t1 = t2 then
      if hc : c1 = c2 then
        if ha : a1 = a2 then
          match Elem.decEqList ch1 ch2 with
          | isTrue hch => isTrue (by rw [ht, hc, ha, hch])
          | isFalse hch => isFalse (by intro h; injection h; contradiction)
        else isFalse (by intro h; injection h; contradiction)
      else isFalse (by intro h; injection h; contradiction)
    else isFalse (by intro h; injection h; contradiction)

def Elem.decEqList : (as bs : List Elem) → Decidable (as = bs)
  | [], [] => isTrue rfl
  | [], _ :: _ => isFalse nofun
  | _ :: _, [] => isFalse nofun
  | a :: as, b :: bs =>
    match Elem.decEq a b, Elem.decEqList as bs with
    | isTrue h1, isTrue h2 => isTrue (by rw [h1, h2])
    | isFalse h1, _ => isFalse (by intro h; injection h; contradiction)
    | _, isFalse h2 => isFalse (by intro h; injection h; contradiction)

end

instance : DecidableEq Elem := Elem.decEq

/-- Tag name of an element. -/
def Elem.tag : Elem → String
  | .mk t _ _ _ => t

/-- Class list of an element. -/
def Elem.classes : Elem → List String
  | .mk _ c _ _ => c

/-- Attribute list of an element. -/
def Elem.attrs : Elem → List (String × String)
  | .mk _ _ a _ => a

/-- Child elements of an element. -/
def Elem.children : Elem → List Elem
  | .mk _ _ _ ch => ch

/-- Membership test for a class name (`classList.contains`). -/
def Elem.hasClass (e : Elem) (c : String) : Bool :=
  e.classes.contains c

/-- Attribute lookup (`getAttribute`, null becoming `none`). -/
def Elem.getAttr (e : Elem) (name : String) : Option String :=
  (e.attrs.find? (fun p => p.1 == name)).map (fun p => p.2)

mutual

/-- Strict descendants of an element in pre-order (document order). -/
def Elem.descs : Elem → List Elem
  | .mk _ _ _ ch => Elem.descsList ch

/-- Pre-order traversal of a forest of elements. -/
def Elem.descsList : List Elem → List Elem
  | [] => []
  | e :: es => e :: (Elem.descs e ++ Elem.descsList es)

end

/-- The `qsa` helper of the census code restricted to the predicates it uses:
all strict descendants satisfying `p`, in document order. -/
def qsa (root : Elem) (p : Elem → Bool) : List Elem :=
  root.descs.filter p

/-- The `querySelector` counterpart: first descendant satisfying `p`. -/
def queryFirst (root : Elem) (p : Elem → Bool) : Option Elem :=
  root.descs.find? p

/-- The DOM `Node.contains` check (true for the node itself and its descendants). -/
def Elem.containsE (a b : Elem) : Bool :=
  a == b || a.descs.contains b

/-- Number of strict descendants carrying a given class. -/
def countClass (root : Elem) (c : String) : Nat :=
  (qsa root (fun e => e.hasClass c)).length

/-- Number of strict descendants with a given tag name. -/
def countTag (root : Elem) (t : String) : Nat :=
  (qsa root (fun e => e.tag == t)).length

/-- The `getCarouselRoots` function of the rendered census: first-party wrapper
elements, plus generic slick or swiper roots not nested in a first-party
wrapper, deduplicated in insertion order and restricted to outermost roots. -/
def getCarouselRoots (scope : Elem) : List Elem :=
  let aspRoots :=
    qsa scope (fun e => e.hasClass "w-icatcher-slider")
    ++ qsa scope (fun e => e.hasClass "w-testimonials")
  let isInsideAspRoot := fun (el : Elem) =>
    aspRoots.any (fun wrap => wrap != el && wrap.containsE el)
  let genericRoots :=
    (qsa scope (fun e => e.hasClass "slick-slider")
      ++ qsa scope (fun e => e.hasClass "swiper" || e.hasClass "swiper-container")).filter
      (fun el => !isInsideAspRoot el)
  let combined := (aspRoots ++ genericRoots).eraseDups
  combined.filter (fun el => !combined.any (fun other => other != el && other.containsE el))

/-- The `countSlidesInCarousel` function of the rendered census: per-library
slide counting that discounts clones and loop duplicates. `new Set(indices).size`
is embedded as the length of `List.eraseDups`. -/
def countSlidesInCarousel (rootEl : Elem) : Nat :=
  if rootEl.hasClass "w-icatcher-slider" then
    let items := qsa rootEl
      (fun e => e.hasClass "w-icatcher-slider__list__item" && !e.hasClass "slick-cloned")
    if items.length != 0 then items.length
    else
      match queryFirst rootEl (fun e => e.hasClass "slick-track") with
      | some track =>
        (qsa track (fun e => e.hasClass "slick-slide" && !e.hasClass "slick-cloned")).length
      | none => 0
  else if rootEl.hasClass "w-testimonials" then
    match queryFirst rootEl (fun e => e.hasClass "swiper-wrapper") with
    | none => 0
    | some wrapper =>
      let slides := qsa wrapper (fun e => e.hasClass "swiper-slide")
      let indices := slides.filterMap (fun s => s.getAttr "data-swiper-slide-index")
      if indices.length != 0 then indices.eraseDups.length
      else (slides.filter (fun s => !s.hasClass "swiper-slide-duplicate")).length
  else
    match queryFirst rootEl (fun e => e.hasClass "slick-track") with
    | some slickTrack =>
      (qsa slickTrack (fun e => e.hasClass "slick-slide" && !e.hasClass "slick-cloned")).length
    | none =>
      match queryFirst rootEl (fun e => e.hasClass "swiper-wrapper") with
      | some swiperWrapper =>
        let slides := qsa swiperWrapper (fun e => e.hasClass "swiper-slide")
        let indices := slides.filterMap (fun s => s.getAttr "data-swiper-slide-index")
        if indices.length != 0 then indices.eraseDups.length
        else (slides.filter (fun s => !s.hasClass "swiper-slide-duplicate")).length
      | none => 0

mutual

/-- Elements matching the selector `main .section`: every element carrying the
class `section` that has a strict ancestor with tag `main`, in document order.
The flag records whether a `main` ancestor has been passed. -/
def mainSections (insideMain : Bool) : Elem → List Elem
  | .mk t c a ch =>
    (if insideMain && c.contains "section" then [Elem.mk t c a ch] else [])
    ++ mainSectionsList (insideMain || t == "main") ch

/-- Forest version of `mainSections`. -/
def mainSectionsList (insideMain : Bool) : List Elem → List Elem
  | [] => []
  | e :: es => mainSections insideMain e ++ mainSectionsList insideMain es

end

/-!
Census output shape. Only the numeric fields that the claims and the scoring
engine consume are embedded; the descriptive `selector` and `note` strings, and
the rendered per-section breakdown with its image URL collection and network
size probing (`topImages`), are display-only data outside this pure model.
-/

/-- Library type counts. -/
structure LibTypes where
  news : Nat
  products : Nat
  video : Nat
  sponsor : Nat
deriving DecidableEq

/-- Library census block. -/
structure LibrariesCounts where
  containers : Nat
  types : LibTypes
  typesTotal : Nat
deriving DecidableEq

/-- Ad-space census block. -/
structure AdSpaceCounts where
  skyscraperLeft : Nat
  skyscraperRight : Nat
  skyscraperTop : Nat
  skyscraperBottom : Nat
  total : Nat
deriving DecidableEq

/-- Carousel census block. -/
structure CarouselsCounts where
  count : Nat
  slidesPerCarousel : List Nat
  slidesTotal : Nat
deriving DecidableEq

/-- Testimonial census block. -/
structure TestimonialsCounts where
  count : Nat
  itemsPerBlock : List Nat
  itemsTotal : Nat
deriving DecidableEq

/-- The structural census of a page (sections as the scalar total). -/
structure CensusCounts where
  sectionsTotal : Nat
  carousels : CarouselsCounts
  testimonials : TestimonialsCounts
  libraries : LibrariesCounts
  media : MediaCounts
  adSpace : AdSpaceCounts
deriving DecidableEq

/-- Library census shared by both engines (identical selector counting). -/
def librariesCensus (doc : Elem) : LibrariesCounts :=
  let types : LibTypes :=
    { news := countClass doc "m-libraries-news-list",
      products := countClass doc "m-libraries-products-list",
      video := countClass doc "m-libraries-video-list",
      sponsor := countClass doc "m-libraries-sponsor-list" }
  { containers := countClass doc "js-library-list-outer",
    types := types,
    typesTotal := types.news + types.products + types.video + types.sponsor }

/-- Ad-space census shared by both engines. -/
def adSpaceCensus (doc : Elem) : AdSpaceCounts :=
  let l := countClass doc "skyscraper-left"
  let r := countClass doc "skyscraper-right"
  let t := countClass doc "skyscraper-top"
  let b := countClass doc "skyscraper-bottom"
  { skyscraperLeft := l, skyscraperRight := r, skyscraperTop := t, skyscraperBottom := b,
    total := l + r + t + b }

/-- Media census shared by both engines (tag selectors `img`, `video`, `iframe`). -/
def mediaCensus (doc : Elem) : MediaCounts :=
  { images := countTag doc "img",
    videos := countTag doc "video",
    iframes := countTag doc "iframe" }

/-- The per-block testimonial item count of the rendered census: all
`swiper-slide` descendants of the first `swiper-wrapper`, or, without a
wrapper, the larger of the non-cloned slick slide count and the swiper slide count. -/
def renderedTestimonialItems (el : Elem) : Nat :=
  match queryFirst el (fun e => e.hasClass "swiper-wrapper") with
  | some wrapper => (qsa wrapper (fun e => e.hasClass "swiper-slide")).length
  | none =>
    let slickReal :=
      (qsa el (fun e => e.hasClass "slick-slide" && !e.hasClass "slick-cloned")).length
    let swiper := (qsa el (fun e => e.hasClass "swiper-slide")).length
    max slickReal swiper

/-- The pure extraction performed inside `page.evaluate` by `getRenderedAspCounts`
(global totals; the per-section breakdown is display-only and not modelled). -/
def renderedCensus (doc : Elem) : CensusCounts :=
  let sectionEls := mainSectionsList false doc.children
  let carouselsGlobal := getCarouselRoots doc
  let slidesPerCarousel := carouselsGlobal.map countSlidesInCarousel
  let testimonialEls := qsa doc (fun e => e.hasClass "w-testimonials")
  let itemsPerBlock := testimonialEls.map renderedTestimonialItems
  { sectionsTotal := sectionEls.length,
    carousels :=
      { count := carouselsGlobal.length,
        slidesPerCarousel := slidesPerCarousel,
        slidesTotal := slidesPerCarousel.foldl (· + ·) 0 },
    testimonials :=
      { count := testimonialEls.length,
        itemsPerBlock := itemsPerBlock,
        itemsTotal := itemsPerBlock.foldl (· + ·) 0 },
    libraries := librariesCensus doc,
    media := mediaCensus doc,
    adSpace := adSpaceCensus doc }

/-- The per-carousel real-slide count of the static census (`buildAspPerfCounts`):
children of the first `slick-track` carrying `slick-slide`, otherwise all
`slick-slide` descendants, in both cases excluding `slick-cloned`. -/
def staticIcatcherSlides (el : Elem) : Nat :=
  match queryFirst el (fun e => e.hasClass "slick-track") with
  | some track =>
    ((track.children.filter (fun e => e.hasClass "slick-slide")).filter
      (fun e => !e.hasClass "slick-cloned")).length
  | none =>
    ((qsa el (fun e => e.hasClass "slick-slide")).filter
      (fun e => !e.hasClass "slick-cloned")).length

/-- The per-block testimonial item count of the static census: the larger of
the slick and swiper slide counts, scoped to the first `swiper-wrapper` when
one exists and to the whole block otherwise (no clone exclusion). -/
def staticTestimonialItems (el : Elem) : Nat :=
  match queryFirst el (fun e => e.hasClass "swiper-wrapper") with
  | none =>
    max (qsa el (fun e => e.hasClass "slick-slide")).length
      (qsa el (fun e => e.hasClass "swiper-slide")).length
  | some wrapper =>
    max (qsa wrapper (fun e => e.hasClass "slick-slide")).length
      (qsa wrapper (fun e => e.hasClass "swiper-slide")).length

/-- The static census `buildAspPerfCounts` over parsed HTML. -/
def staticCensus (doc : Elem) : CensusCounts :=
  let icatcher := qsa doc (fun e => e.hasClass "w-icatcher-slider")
  let slidesPerCarousel := icatcher.map staticIcatcherSlides
  let testimonialEls := qsa doc (fun e => e.hasClass "w-testimonials")
  let itemsPerBlock := testimonialEls.map staticTestimonialItems
  { sectionsTotal := countClass doc "section",
    carousels :=
      { count := icatcher.length,
        slidesPerCarousel := slidesPerCarousel,
        slidesTotal := slidesPerCarousel.foldl (· + ·) 0 },
    testimonials :=
      { count := testimonialEls.length,
        itemsPerBlock := itemsPerBlock,
        itemsTotal := itemsPerBlock.foldl (· + ·) 0 },
    libraries := librariesCensus doc,
    media := mediaCensus doc,
    adSpace := adSpaceCensus doc }

/-!
URL validation. The handlers call the platform WHATWG `new URL` constructor
and inspect `parsed.protocol`; the constructor itself is not repository code,
so it is modelled here to the depth the validation uses: a URL string parses
when it starts with a scheme (an ASCII letter followed by letters, digits,
`+`, `-` or `.`) terminated by a colon, and, for the special schemes that
require a host, when `//` and a host character follow; `protocol` is the
lowercased scheme with its trailing colon.
-/

/-- Parsed URL, reduced to the only field the validation reads. -/
structure JsUrl where
  protocol : String
deriving DecidableEq

/-- Character allowed to start a scheme. -/
def isSchemeStart (c : Char) : Bool :=
  c.isAlpha

/-- Character allowed inside a scheme. -/
def isSchemeChar (c : Char) : Bool :=
  c.isAlpha || c.isDigit || c == '+' || c == '-' || c == '.'

/-- Schemes the WHATWG parser treats as special, requiring an authority. -/
def specialSchemes : List String :=
  ["http", "https", "ws", "wss", "ftp", "file"]

/-- Splits a leading `scheme:` off a character list. -/
def splitScheme (cs : List Char) : Option (String × List Char) :=
  match cs with
  | [] => none
  | c :: rest =>
    if isSchemeStart c then
      match rest.dropWhile isSchemeChar with
      | ':' :: tail => some (String.mk (c :: rest.takeWhile isSchemeChar), tail)
      | _ => none
    else none

/-- Character-wise lowercasing (the scheme normalisation performed by the URL parser). -/
def lowerString (s : String) : String :=
  String.mk (s.data.map Char.toLower)

/-- Model of the `new URL` constructor used by the handlers (see section note). -/
def jsUrlParse (s : String) : Option JsUrl :=
  match splitScheme s.toList with
  | none => none
  | some (scheme, tail) =>
    let schemeL := lowerString scheme
    if specialSchemes.contains schemeL then
      match tail with
      | '/' :: '/' :: c :: _ => if c == '/' then none else some { protocol := schemeL ++ ":" }
      | _ => none
    else some { protocol := schemeL ++ ":" }

/-- Outcome of the validation prologue of a handler: an immediate 400 response,
or continuation into the part of the handler that performs network work. -/
inductive HandlerStep where
  | reject400 (msg : String)
  | networkCall (target : String)
deriving DecidableEq

/-- The JavaScript `String.prototype.startsWith` as a character-prefix test. -/
def strStartsWith (s pre : String) : Bool :=
  pre.data.isPrefixOf s.data

/-- The validation prologue of `GET /api/audit`: parse failure is a 400, then a
protocol merely required to start with `http` is let through to the upstream fetch. -/
def auditValidate (target : String) : HandlerStep :=
  match jsUrlParse target with
  | none => .reject400 "Invalid url"
  | some parsed =>
    if strStartsWith parsed.protocol "http" then .networkCall target
    else .reject400 "URL must be http/https"

/-- The validation prologue of `GET /api/asp-recommendations`: parse failure is
a 400, and the protocol must be exactly `http:` or `https:` before the rendered
census is launched. -/
def aspRecValidate (target : String) : HandlerStep :=
  match jsUrlParse target with
  | none => .reject400 "Invalid url"
  | some parsed =>
    if (["http:", "https:"] : List String).contains parsed.protocol then .networkCall target
    else .reject400 "URL must be http/https"

/-!
Canonical input builders used by the carousel and testimonial theorems, and
the concrete inputs used by counterexamples and witnesses.
-/

/-- A slick slide as rendered inside a first-party icatcher carousel: the
original item class is retained on clones, which additionally carry `slick-cloned`. -/
def mkSlickSlide (clone : Bool) : Elem :=
  .mk "div"
    (if clone then ["slick-slide", "slick-cloned", "w-icatcher-slider__list__item"]
     else ["slick-slide", "w-icatcher-slider__list__item"])
    [] []

/-- A first-party icatcher carousel whose track holds one slide per flag
(`true` marks a clone injected for infinite looping). -/
def mkSlickCarousel (flags : List Bool) : Elem :=
  .mk "div" ["w-icatcher-slider"] []
    [.mk "div" ["slick-track"] [] (flags.map mkSlickSlide)]

/-- A swiper slide inside a testimonial widget, with an optional
`data-swiper-slide-index` attribute and a loop-duplicate flag. -/
def mkSwiperSlide (idx : Option String) (dup : Bool) : Elem :=
  .mk "div"
    (if dup then ["swiper-slide", "swiper-slide-duplicate"] else ["swiper-slide"])
    (match idx with
     | some v => [("data-swiper-slide-index", v)]
     | none => [])
    []

/-- A first-party testimonial widget whose wrapper holds one slide per entry
(original-index attribute, duplicate flag). -/
def mkTestimonial (slides : List (Option String × Bool)) : Elem :=
  .mk "div" ["w-testimonials"] []
    [.mk "div" ["swiper-wrapper"] [] (slides.map (fun p => mkSwiperSlide p.1 p.2))]

/-- A document containing a single given element. -/
def mkDoc (e : Elem) : Elem :=
  .mk "#document" [] [] [e]

/-- Census counts that are zero everywhere (every dimension in its good tier). -/
def zeroInput : ScoreInput :=
  { sections := 0, carousels := ⟨0, 0⟩, testimonials := ⟨0, 0⟩,
    libraries := ⟨0, 0⟩, media := ⟨0, 0, 0⟩, adSpace := ⟨0⟩ }

/-- Census counts with all nine dimensions in their worst tier
(naive running total 100 - 113 = -13). -/
def worstInput : ScoreInput :=
  { sections := 25, carousels := ⟨3, 17⟩, testimonials := ⟨3, 19⟩,
    libraries := ⟨2, 4⟩, media := ⟨61, 3, 4⟩, adSpace := ⟨5⟩ }

/-- Census counts whose only non-good dimensions are images (-7) and iframes (-15). -/
def mixedMediaInput : ScoreInput :=
  { zeroInput with media := ⟨41, 0, 4⟩ }

/-- Census counts with exactly four iframes and everything else in the good tier. -/
def fourIframesInput : ScoreInput :=
  { zeroInput with media := ⟨0, 0, 4⟩ }

/-- Census counts with exactly 61 images and everything else in the good tier. -/
def manyImagesInput : ScoreInput :=
  { zeroInput with media := ⟨61, 0, 0⟩ }

/-- Census counts varying only the section total. -/
def sectionsOnly (s : Nat) : ScoreInput :=
  { zeroInput with sections := s }

/-- The testimonial slide set used against the dedup claim: slides with
original indices 0, 1 and a loop duplicate of index 0 (two distinct originals,
three rendered slides). -/
def dupSlides : List (Option String × Bool) :=
  [(some "0", false), (some "1", false), (some "0", true)]

/-!
Helper lemmas: per-dimension field computations, lookup of a dimension in the
findings list, evaluation of two-element merge sorts, and structural facts
about the canonical carousel and testimonial trees.
-/

theorem sectionsFinding_key (s : Nat) : (sectionsFinding s).key = "sections" := by
  unfold sectionsFinding
  by_cases h1 : s > 24 <;> by_cases h2 : s > 16 <;> simp [h1, h2]

theorem carouselsFinding_key (c s : Nat) : (carouselsFinding c s).key = "carousels" := by
  unfold carouselsFinding
  by_cases h1 : c ≥ 3 <;> by_cases h2 : c ≥ 2 <;> simp [h1, h2]

theorem carouselSlidesFinding_key (s : Nat) :
    (carouselSlidesFinding s).key = "carouselSlides" := rfl

theorem testimonialsFinding_key (b i : Nat) : (testimonialsFinding b i).key = "testimonials" := by
  unfold testimonialsFinding
  by_cases h1 : b ≥ 3 ∨ i > 18 <;> simp [h1]

theorem librariesFinding_key (c t : Nat) : (librariesFinding c t).key = "libraries" := by
  unfold librariesFinding
  by_cases h1 : c > 1 ∨ t ≥ 3 <;> by_cases h2 : t ≥ 4 <;> simp [h1, h2]

theorem imagesFinding_key (n : Nat) : (imagesFinding n).key = "images" := by
  unfold imagesFinding
  by_cases h1 : n > 60 <;> by_cases h2 : n > 40 <;> by_cases h3 : n > 90 <;> simp [h1, h2, h3]

theorem videosFinding_key (n : Nat) : (videosFinding n).key = "videos" := by
  unfold videosFinding
  by_cases h1 : n ≥ 3 <;> by_cases h2 : n ≥ 5 <;> simp [h1, h2]

theorem iframesFinding_key (n : Nat) : (iframesFinding n).key = "iframes" := by
  unfold iframesFinding
  by_cases h1 : n ≥ 4 <;> by_cases h2 : n ≥ 2 <;> by_cases h3 : n ≥ 6 <;> simp [h1, h2, h3]

theorem adSpaceFinding_key (t : Nat) : (adSpaceFinding t).key = "adSpace" := by
  unfold adSpaceFinding
  by_cases h1 : t ≥ 5 <;> by_cases h2 : t ≥ 3 <;> simp [h1, h2]

theorem scoreAspCounts_findings (c : ScoreInput) :
    (scoreAspCounts c).findings = scoreFindings c := rfl

theorem scoreAspCounts_recs (c : ScoreInput) :
    (scoreAspCounts c).recommendations = (nonGoodSorted c).map recTemplate := rfl

theorem scoreAspCounts_score (c : ScoreInput) :
    (scoreAspCounts c).overall.score = clampInt (100 - (totalDeduction c : Int)) 0 100 := rfl

theorem findings_keys (c : ScoreInput) :
    (scoreFindings c).map Finding.key
      = ["sections", "carousels"]
        ++ (if c.carousels.slidesTotal > 16 then ["carouselSlides"] else [])
        ++ ["testimonials", "libraries", "images", "videos", "iframes", "adSpace"] := by
  unfold scoreFindings
  by_cases h : c.carousels.slidesTotal > 16 <;>
    simp [h, sectionsFinding_key, carouselsFinding_key, carouselSlidesFinding_key,
      testimonialsFinding_key, librariesFinding_key, imagesFinding_key,
      videosFinding_key, iframesFinding_key, adSpaceFinding_key]

theorem getFinding_sections (c : ScoreInput) :
    getFinding (scoreAspCounts c) "sections" = some (sectionsFinding c.sections) := by
  unfold getFinding
  rw [scoreAspCounts_findings]
  unfold scoreFindings
  simp [List.find?_cons, sectionsFinding_key]

theorem getFinding_iframes (c : ScoreInput) :
    getFinding (scoreAspCounts c) "iframes" = some (iframesFinding c.media.iframes) := by
  unfold getFinding
  rw [scoreAspCounts_findings]
  unfold scoreFindings
  by_cases h : c.carousels.slidesTotal > 16 <;>
    simp [h, List.find?_cons, sectionsFinding_key, carouselsFinding_key,
      carouselSlidesFinding_key, testimonialsFinding_key, librariesFinding_key,
      imagesFinding_key, videosFinding_key, iframesFinding_key]

theorem getFinding_images (c : ScoreInput) :
    getFinding (scoreAspCounts c) "images" = some (imagesFinding c.media.images) := by
  unfold getFinding
  rw [scoreAspCounts_findings]
  unfold scoreFindings
  by_cases h : c.carousels.slidesTotal > 16 <;>
    simp [h, List.find?_cons, sectionsFinding_key, carouselsFinding_key,
      carouselSlidesFinding_key, testimonialsFinding_key, librariesFinding_key,
      imagesFinding_key]

theorem mergeSort_pair {α : Type} (le : α → α → Bool) (a b : α) :
    List.mergeSort [a, b] le = if le a b then [a, b] else [b, a] := by
  rw [List.mergeSort]
  simp only [List.splitInTwo, List.splitAt_eq, List.take, List.drop,
    List.mergeSort_singleton, List.merge]
  split <;> rename_i h <;> simp [List.merge, h]

theorem nonGoodSorted_perm (c : ScoreInput) :
    (nonGoodSorted c).Perm ((scoreFindings c).filter (fun f => f.severity != Severity.good)) :=
  List.mergeSort_perm _ _

theorem nonGoodSorted_sorted (c : ScoreInput) :
    (nonGoodSorted c).Pairwise (fun a b => a.points ≤ b.points) := by
  have h := @List.sorted_mergeSort Finding
    (fun (a b : Finding) => decide (a.points ≤ b.points))
    (fun a b d hab hbd => by
      simp only [decide_eq_true_eq] at *
      omega)
    (fun a b => by
      simp only [Bool.or_eq_true, decide_eq_true_eq]
      omega)
    ((scoreFindings c).filter (fun f => f.severity != Severity.good))
  exact h.imp (fun hab => by simpa using hab)

theorem recTemplate_default (f : Finding)
    (h : f.key ∉ (["sections", "carousels", "carouselSlides", "testimonials",
      "libraries", "images", "videos", "iframes", "adSpace"] : List String)) :
    recTemplate f = { key := f.key, title := f.label, action := f.message } := by
  unfold recTemplate
  split
  all_goals simp_all

theorem Elem.descs_eq (e : Elem) : e.descs = Elem.descsList e.children := by
  cases e
  rfl

theorem Elem.descsList_cons (e : Elem) (es : List Elem) :
    Elem.descsList (e :: es) = e :: (e.descs ++ Elem.descsList es) := rfl

theorem Elem.descsList_leaves (l : List Elem) (h : ∀ e ∈ l, e.children = []) :
    Elem.descsList l = l := by
  induction l with
  | nil => rfl
  | cons e es ih =>
    rw [Elem.descsList_cons, Elem.descs_eq, h e (List.mem_cons_self e es)]
    simp only [Elem.descsList, List.nil_append]
    rw [ih (fun x hx => h x (List.mem_cons_of_mem e hx))]

theorem filter_map_eq {β : Type} (l : List β) (f : β → Elem) (p : Elem → Bool) (q : β → Bool)
    (hp : ∀ b, p (f b) = q b) :
    (l.map f).filter p = (l.filter q).map f := by
  rw [List.filter_map]
  congr 1
  apply List.filter_congr
  intro b _
  exact hp b

theorem filterMap_map_eq {β γ : Type} (l : List β) (f : β → Elem) (g : Elem → Option γ)
    (q : β → Option γ) (hg : ∀ b, g (f b) = q b) :
    (l.map f).filterMap g = l.filterMap q := by
  rw [List.filterMap_map]
  congr 1
  funext b
  exact hg b

theorem foldl_add_eq_sum (l : List Nat) (n : Nat) : l.foldl (· + ·) n = n + l.sum := by
  induction l generalizing n with
  | nil => simp
  | cons a t ih => simp [List.foldl_cons, ih, Nat.add_assoc]

theorem mkSlickSlide_children (b : Bool) : (mkSlickSlide b).children = [] := by
  cases b <;> rfl

theorem mkSlick_descs (flags : List Bool) :
    (mkSlickCarousel flags).descs
      = Elem.mk "div" ["slick-track"] [] (flags.map mkSlickSlide) :: flags.map mkSlickSlide := by
  rw [show (mkSlickCarousel flags).descs
      = Elem.descsList [Elem.mk "div" ["slick-track"] [] (flags.map mkSlickSlide)] from rfl]
  rw [Elem.descsList_cons, Elem.descs_eq]
  show _ :: (Elem.descsList (flags.map mkSlickSlide) ++ Elem.descsList []) = _
  rw [Elem.descsList_leaves (flags.map mkSlickSlide)
    (by intro e he
        obtain ⟨b, _, rfl⟩ := List.mem_map.mp he
        exact mkSlickSlide_children b)]
  simp [Elem.descsList]

theorem mkSwiperSlide_children (p : Option String × Bool) :
    (mkSwiperSlide p.1 p.2).children = [] := by
  cases p.2 <;> rfl

theorem mkTestimonial_descs (slides : List (Option String × Bool)) :
    (mkTestimonial slides).descs
      = Elem.mk "div" ["swiper-wrapper"] [] (slides.map (fun p => mkSwiperSlide p.1 p.2))
        :: slides.map (fun p => mkSwiperSlide p.1 p.2) := by
  rw [show (mkTestimonial slides).descs
      = Elem.descsList
          [Elem.mk "div" ["swiper-wrapper"] [] (slides.map (fun p => mkSwiperSlide p.1 p.2))]
    from rfl]
  rw [Elem.descsList_cons, Elem.descs_eq]
  show _ :: (Elem.descsList (slides.map (fun p => mkSwiperSlide p.1 p.2)) ++ Elem.descsList []) = _
  rw [Elem.descsList_leaves (slides.map (fun p => mkSwiperSlide p.1 p.2))
    (by intro e he
        obtain ⟨b, _, rfl⟩ := List.mem_map.mp he
        exact mkSwiperSlide_children b)]
  simp [Elem.descsList]

theorem mkDoc_testimonial_descs (slides : List (Option String × Bool)) :
    (mkDoc (mkTestimonial slides)).descs
      = mkTestimonial slides
        :: Elem.mk "div" ["swiper-wrapper"] [] (slides.map (fun p => mkSwiperSlide p.1 p.2))
        :: slides.map (fun p => mkSwiperSlide p.1 p.2) := by
  rw [show (mkDoc (mkTestimonial slides)).descs = Elem.descsList [mkTestimonial slides] from rfl]
  rw [Elem.descsList_cons, Elem.descs_eq]
  show _ :: (Elem.descsList (mkTestimonial slides).children ++ Elem.descsList []) = _
  rw [show (mkTestimonial slides).children
      = [Elem.mk "div" ["swiper-wrapper"] [] (slides.map (fun p => mkSwiperSlide p.1 p.2))]
    from rfl]
  rw [Elem.descsList_cons, Elem.descs_eq]
  show _ :: ((_ :: (Elem.descsList (slides.map (fun p => mkSwiperSlide p.1 p.2))
    ++ Elem.descsList []) ++ Elem.descsList [])) = _
  rw [Elem.descsList_leaves (slides.map (fun p => mkSwiperSlide p.1 p.2))
    (by intro e he
        obtain ⟨b, _, rfl⟩ := List.mem_map.mp he
        exact mkSwiperSlide_children b)]
  simp [Elem.descsList]

theorem rendered_items_all (slides : List (Option String × Bool)) :
    (renderedCensus (mkDoc (mkTestimonial slides))).testimonials.itemsPerBlock
      = [slides.length] := by
  have hproj : (renderedCensus (mkDoc (mkTestimonial slides))).testimonials.itemsPerBlock
      = ((qsa (mkDoc (mkTestimonial slides)) (fun e => e.hasClass "w-testimonials")).map
          renderedTestimonialItems) := rfl
  rw [hproj]
  unfold qsa
  rw [mkDoc_testimonial_descs]
  rw [show (mkTestimonial slides
        :: Elem.mk "div" ["swiper-wrapper"] [] (slides.map (fun p => mkSwiperSlide p.1 p.2))
        :: slides.map (fun p => mkSwiperSlide p.1 p.2)).filter
          (fun e => e.hasClass "w-testimonials")
      = mkTestimonial slides
        :: (slides.map (fun p => mkSwiperSlide p.1 p.2)).filter
            (fun e => e.hasClass "w-testimonials") by
    have h1 : (mkTestimonial slides).hasClass "w-testimonials" = true := rfl
    have h2 : (Elem.mk "div" ["swiper-wrapper"] []
        (slides.map (fun p => mkSwiperSlide p.1 p.2))).hasClass "w-testimonials" = false := rfl
    simp [List.filter_cons, h1, h2]]
  rw [filter_map_eq slides _ _ (fun _ => false)
    (by intro b; cases hb : b.2 <;> simp [mkSwiperSlide, Elem.hasClass, Elem.classes, hb])]
  rw [List.filter_false]
  simp only [List.map_nil, List.map_cons]
  congr 1
  unfold renderedTestimonialItems queryFirst
  rw [mkTestimonial_descs]
  rw [show (Elem.mk "div" ["swiper-wrapper"] [] (slides.map (fun p => mkSwiperSlide p.1 p.2))
        :: slides.map (fun p => mkSwiperSlide p.1 p.2)).find?
          (fun e => e.hasClass "swiper-wrapper")
      = some (Elem.mk "div" ["swiper-wrapper"] [] (slides.map (fun p => mkSwiperSlide p.1 p.2)))
    by simp [List.find?_cons]; rfl]
  dsimp only
  unfold qsa
  rw [Elem.descs_eq]
  show ((Elem.descsList (slides.map (fun p => mkSwiperSlide p.1 p.2))).filter _).length = _
  rw [Elem.descsList_leaves (slides.map (fun p => mkSwiperSlide p.1 p.2))
    (by intro e he
        obtain ⟨b, _, rfl⟩ := List.mem_map.mp he
        exact mkSwiperSlide_children b)]
  rw [filter_map_eq slides _ _ (fun _ => true)
    (by intro b; cases hb : b.2 <;> simp [mkSwiperSlide, Elem.hasClass, Elem.classes, hb])]
  rw [List.filter_true, List.length_map]

theorem countSlides_mkTestimonial (slides : List (Option String × Bool)) :
    countSlidesInCarousel (mkTestimonial slides)
      = (if (slides.filterMap Prod.fst).length ≠ 0
         then (slides.filterMap Prod.fst).eraseDups.length
         else (slides.filter (fun p => !p.2)).length) := by
  have hroot1 : (mkTestimonial slides).hasClass "w-icatcher-slider" = false := rfl
  have hroot2 : (mkTestimonial slides).hasClass "w-testimonials" = true := rfl
  unfold countSlidesInCarousel
  rw [if_neg (by rw [hroot1]; exact Bool.false_ne_true), if_pos hroot2]
  unfold queryFirst
  rw [mkTestimonial_descs]
  rw [show (Elem.mk "div" ["swiper-wrapper"] [] (slides.map (fun p => mkSwiperSlide p.1 p.2))
        :: slides.map (fun p => mkSwiperSlide p.1 p.2)).find?
          (fun e => e.hasClass "swiper-wrapper")
      = some (Elem.mk "div" ["swiper-wrapper"] [] (slides.map (fun p => mkSwiperSlide p.1 p.2)))
    by simp [List.find?_cons]; rfl]
  dsimp only
  unfold qsa
  rw [Elem.descs_eq]
  show (let sl := (Elem.descsList (slides.map (fun p => mkSwiperSlide p.1 p.2))).filter _
        let indices := sl.filterMap _
        if (indices.length != 0) = true then indices.eraseDups.length
        else (sl.filter (fun s => !s.hasClass "swiper-slide-duplicate")).length) = _
  rw [Elem.descsList_leaves (slides.map (fun p => mkSwiperSlide p.1 p.2))
    (by intro e he
        obtain ⟨b, _, rfl⟩ := List.mem_map.mp he
        exact mkSwiperSlide_children b)]
  rw [filter_map_eq slides _ _ (fun _ => true)
    (by intro b; cases hb : b.2 <;> simp [mkSwiperSlide, Elem.hasClass, Elem.classes, hb])]
  rw [List.filter_true]
  dsimp only
  rw [filterMap_map_eq slides _ _ Prod.fst
    (by intro b
        cases hb : b.2 <;> cases hi : b.1 <;>
          simp [mkSwiperSlide, Elem.getAttr, Elem.attrs, hb, hi])]
  rw [filter_map_eq slides _ _ (fun p => !p.2)
    (by intro b; cases hb : b.2 <;> simp [mkSwiperSlide, Elem.hasClass, Elem.classes, hb])]
  rw [List.length_map]
  by_cases hz : (slides.filterMap Prod.fst).length = 0 <;> simp [hz]

theorem staticSlides_mkSlick (flags : List Bool) :
    staticIcatcherSlides (mkSlickCarousel flags) = (flags.filter (fun b => !b)).length := by
  have htrack2 : (Elem.mk "div" ["slick-track"] [] (flags.map mkSlickSlide)).hasClass
      "slick-track" = true := rfl
  unfold staticIcatcherSlides queryFirst
  rw [mkSlick_descs]
  rw [show (Elem.mk "div" ["slick-track"] [] (flags.map mkSlickSlide)
        :: flags.map mkSlickSlide).find? (fun e => e.hasClass "slick-track")
      = some (Elem.mk "div" ["slick-track"] [] (flags.map mkSlickSlide)) by
    simp [List.find?_cons, htrack2]]
  dsimp only
  rw [show (Elem.mk "div" ["slick-track"] [] (flags.map mkSlickSlide)).children
      = flags.map mkSlickSlide from rfl]
  rw [filter_map_eq flags _ _ (fun _ => true) (by intro b; cases b <;> rfl)]
  rw [List.filter_true]
  rw [filter_map_eq flags _ _ (fun b => !b) (by intro b; cases b <;> rfl)]
  rw [List.length_map]

theorem countSlides_mkSlick (flags : List Bool) :
    countSlidesInCarousel (mkSlickCarousel flags) = (flags.filter (fun b => !b)).length := by
  have hroot : (mkSlickCarousel flags).hasClass "w-icatcher-slider" = true := rfl
  have htrack : (Elem.mk "div" ["slick-track"] [] (flags.map mkSlickSlide)).hasClass
      "w-icatcher-slider__list__item" = false := rfl
  have htrack2 : (Elem.mk "div" ["slick-track"] [] (flags.map mkSlickSlide)).hasClass
      "slick-track" = true := rfl
  unfold countSlidesInCarousel
  rw [if_pos hroot]
  unfold qsa queryFirst
  rw [mkSlick_descs]
  rw [show (Elem.mk "div" ["slick-track"] [] (flags.map mkSlickSlide)
        :: flags.map mkSlickSlide).filter
        (fun e => e.hasClass "w-icatcher-slider__list__item" && !e.hasClass "slick-cloned")
      = (flags.map mkSlickSlide).filter
        (fun e => e.hasClass "w-icatcher-slider__list__item" && !e.hasClass "slick-cloned") by
    simp [List.filter_cons, htrack]]
  rw [filter_map_eq flags _ _ (fun b => !b) (by intro b; cases b <;> rfl)]
  dsimp only
  rw [List.length_map]
  by_cases hz : (flags.filter (fun b => !b)).length = 0
  · rw [if_neg (by simp [hz])]
    rw [show (Elem.mk "div" ["slick-track"] [] (flags.map mkSlickSlide)
          :: flags.map mkSlickSlide).find? (fun e => e.hasClass "slick-track")
        = some (Elem.mk "div" ["slick-track"] [] (flags.map mkSlickSlide)) by
      simp [List.find?_cons, htrack2]]
    dsimp only
    rw [Elem.descs_eq]
    show ((Elem.descsList (flags.map mkSlickSlide)).filter _).length = _
    rw [Elem.descsList_leaves (flags.map mkSlickSlide)
      (by intro e he
          obtain ⟨b, _, rfl⟩ := List.mem_map.mp he
          exact mkSlickSlide_children b)]
    rw [filter_map_eq flags _ _ (fun b => !b) (by intro b; cases b <;> rfl)]
    simp [hz]
  · rw [if_pos (by simp [hz])]

theorem validate_reject_unparseable (s : String) (h : jsUrlParse s = none) :
    auditValidate s = .reject400 "Invalid url"
    ∧ aspRecValidate s = .reject400 "Invalid url" := by
  constructor
  · unfold auditValidate
    rw [h]
  · unfold aspRecValidate
    rw [h]

theorem aspRec_reject_scheme (s : String) (u : JsUrl) (h : jsUrlParse s = some u)
    (hp : u.protocol ∉ (["http:", "https:"] : List String)) :
    aspRecValidate s = .reject400 "URL must be http/https" := by
  unfold aspRecValidate
  rw [h]
  dsimp only
  rw [if_neg]
  intro hc
  exact hp (by simpa using hc)

theorem audit_accepts_http (s : String) (u : JsUrl) (h : jsUrlParse s = some u)
    (hp : strStartsWith u.protocol "http" = true) :
    auditValidate s = .networkCall s := by
  unfold auditValidate
  rw [h]
  dsimp only
  rw [if_pos hp]

/-!
Claim theorems.
-/

/-- Claim C1, counterexample: the claim says the scoring engine always returns
exactly 9 findings, but on all-zero counts (carousel slide total 0, not above
16) only 8 findings are produced, because the carousel-slide-total dimension
pushes no finding in its good tier. -/
theorem finding_count_cex :
    (scoreAspCounts zeroInput).findings.length = 8 ∧ (8 : Nat) ≠ 9 :=
  ⟨by decide, by decide⟩

/-- Claim C1, amended: `scoreAspCounts` returns 9 findings when the carousel
slide total exceeds 16 and 8 findings otherwise (the carousel-slide-total
dimension emits no finding in its good tier); no dimension key is ever
duplicated; and the number of recommendations always equals the number of
findings whose severity is not good. -/
theorem finding_count_amended (c : ScoreInput) :
    ((scoreAspCounts c).findings.length = if 16 < c.carousels.slidesTotal then 9 else 8)
    ∧ ((scoreAspCounts c).findings.map Finding.key).Nodup
    ∧ (scoreAspCounts c).recommendations.length
        = (((scoreAspCounts c).findings).filter (fun f => f.severity != Severity.good)).length := by
  refine ⟨?_, ?_, ?_⟩
  · rw [scoreAspCounts_findings]
    unfold scoreFindings
    by_cases h : c.carousels.slidesTotal > 16 <;> simp [h]
  · rw [scoreAspCounts_findings, findings_keys]
    by_cases h : c.carousels.slidesTotal > 16 <;> simp [h]
  · rw [scoreAspCounts_recs, scoreAspCounts_findings]
    unfold nonGoodSorted
    simp [List.length_mergeSort]

/-- Claim C2, counterexample: the claim says `media.iframes >= 4` yields
severity bad, but at exactly 4 iframes the finding carries -15 points with
severity warn (bad only begins at 6). -/
theorem iframes_tier_cex :
    getFinding (scoreAspCounts fourIframesInput) "iframes"
      = some { key := "iframes", label := "Iframes (<iframe>)", value := .num 4,
               severity := .warn, points := -15,
               message := "Iframes often add third-party JS and can slow down rendering. Defer, lazy-load, and minimise.",
               threshold := [("warnAtOrAbove", 4), ("badAtOrAbove", 6)] }
    ∧ Severity.warn ≠ Severity.bad :=
  ⟨by decide, by decide⟩

/-- Claim C2, amended: the iframes finding deducts 15 points when
`media.iframes >= 4` (severity bad only when `>= 6`, warn for 4 or 5),
deducts 8 with severity warn when `2 <= media.iframes < 4`, and deducts
nothing with severity good below 2. -/
theorem iframes_tier_amended (c : ScoreInput) :
    getFinding (scoreAspCounts c) "iframes" = some (iframesFinding c.media.iframes)
    ∧ (iframesFinding c.media.iframes).points
        = (if 4 ≤ c.media.iframes then (-15 : Int) else if 2 ≤ c.media.iframes then -8 else 0)
    ∧ (iframesFinding c.media.iframes).severity
        = (if 6 ≤ c.media.iframes then Severity.bad
           else if 2 ≤ c.media.iframes then Severity.warn else Severity.good) := by
  refine ⟨getFinding_iframes c, ?_, ?_⟩ <;>
    (unfold iframesFinding
     by_cases h1 : c.media.iframes ≥ 4 <;> by_cases h2 : c.media.iframes ≥ 2 <;>
       by_cases h3 : c.media.iframes ≥ 6 <;> simp [h1, h2, h3] <;> omega)

/-- Claim C3, counterexample: the claim says `media.images > 60` yields
severity bad, but at 61 images the finding carries -12 points with severity
warn (bad only begins above 90). -/
theorem images_tier_cex :
    getFinding (scoreAspCounts manyImagesInput) "images"
      = some { key := "images", label := "Images (<img>)", value := .num 61,
               severity := .warn, points := -12,
               message := "High image counts can hurt LCP and increase network cost. Ensure compression, sizing, and lazy-loading.",
               threshold := [("warnAbove", 40), ("badAbove", 60)] }
    ∧ Severity.warn ≠ Severity.bad :=
  ⟨by decide, by decide⟩

/-- Claim C3, amended: the images finding deducts 12 points when
`media.images > 60` (severity bad only above 90, warn for 61 to 90), deducts
7 with severity warn when `40 < media.images <= 60`, and deducts nothing with
severity good at or below 40. -/
theorem images_tier_amended (c : ScoreInput) :
    getFinding (scoreAspCounts c) "images" = some (imagesFinding c.media.images)
    ∧ (imagesFinding c.media.images).points
        = (if 60 < c.media.images then (-12 : Int) else if 40 < c.media.images then -7 else 0)
    ∧ (imagesFinding c.media.images).severity
        = (if 90 < c.media.images then Severity.bad
           else if 40 < c.media.images then Severity.warn else Severity.good) := by
  refine ⟨getFinding_images c, ?_, ?_⟩ <;>
    (unfold imagesFinding
     by_cases h1 : c.media.images > 60 <;> by_cases h2 : c.media.images > 40 <;>
       by_cases h3 : c.media.images > 90 <;> simp [h1, h2, h3] <;> omega)

/-- Claim C4: for every census input the overall score lies in [0, 100]; it
equals 100 minus the independent per-dimension deductions, clamped exactly once
at the end; and the input with all nine dimensions at their worst tier (naive
total -13) clamps to score 0. -/
theorem score_clamped_in_range (c : ScoreInput) :
    0 ≤ (scoreAspCounts c).overall.score
    ∧ (scoreAspCounts c).overall.score ≤ 100
    ∧ (scoreAspCounts c).overall.score
        = clampInt
            (100 - ((sectionsDed c.sections
              + carouselsDed c.carousels.count
              + carouselSlidesDed c.carousels.slidesTotal
              + testimonialsDed c.testimonials.count c.testimonials.itemsTotal
              + librariesDed c.libraries.containers c.libraries.typesTotal
              + imagesDed c.media.images
              + videosDed c.media.videos
              + iframesDed c.media.iframes
              + adSpaceDed c.adSpace.total : Nat) : Int)) 0 100
    ∧ (scoreAspCounts worstInput).overall.score = 0 := by
  refine ⟨?_, ?_, rfl, by decide⟩
  · rw [scoreAspCounts_score]
    exact le_max_left 0 _
  · rw [scoreAspCounts_score]
    exact max_le (by norm_num) (min_le_left 100 _)

/-- Claim C5: recommendations are exactly the non-good findings, stably sorted
by ascending points, mapped one-to-one through the fixed template table keyed
by the finding key; a finding with an unknown key falls back to its label and
message; and an input producing iframes at -15 and images at -7 lists the
iframes recommendation first. -/
theorem recommendation_ordering (c : ScoreInput) :
    (scoreAspCounts c).recommendations = (nonGoodSorted c).map recTemplate
    ∧ (nonGoodSorted c).Perm
        (((scoreAspCounts c).findings).filter (fun f => f.severity != Severity.good))
    ∧ (nonGoodSorted c).Pairwise (fun a b => a.points ≤ b.points)
    ∧ (∀ f : Finding,
        f.key ∉ (["sections", "carousels", "carouselSlides", "testimonials", "libraries",
          "images", "videos", "iframes", "adSpace"] : List String) →
        recTemplate f = { key := f.key, title := f.label, action := f.message })
    ∧ (scoreAspCounts mixedMediaInput).recommendations
        = [{ key := "iframes", title := "Minimise third-party embeds",
             action := "Lazy-load iframes, remove non-essential embeds, and audit third-party scripts for impact." },
           { key := "images", title := "Optimise images",
             action := "Use responsive images (srcset/sizes), modern formats, compression, and lazy-loading. Ensure LCP image is prioritised." }] := by
  refine ⟨rfl, nonGoodSorted_perm c, nonGoodSorted_sorted c,
    fun f h => recTemplate_default f h, ?_⟩
  rw [scoreAspCounts_recs]
  unfold nonGoodSorted
  have hf : (scoreFindings mixedMediaInput).filter (fun f => f.severity != Severity.good)
      = [imagesFinding 41, iframesFinding 4] := by decide
  rw [hf, mergeSort_pair]
  decide

/-- Claim C5, witness: the recommendation pipeline applied at the mixed-media
input, and the unknown-key fallback applied at a synthetic finding. -/
theorem recommendation_ordering_witness :
    (scoreAspCounts mixedMediaInput).recommendations
        = (nonGoodSorted mixedMediaInput).map recTemplate
    ∧ recTemplate { key := "custom", label := "Custom label", value := FValue.num 0,
                    severity := Severity.warn, points := -1, message := "Custom message",
                    threshold := [] }
        = { key := "custom", title := "Custom label", action := "Custom message" } := by
  have h := recommendation_ordering mixedMediaInput
  exact ⟨h.1, h.2.2.2.1 _ (by decide)⟩

/-- Claim C6: slide counting discounts clone slides in both engines: a
first-party carousel whose track holds one slide per flag (true marking a
clone) reports exactly the number of non-clone slides, under the rendered-DOM
counter and the static counter alike; in particular 5 real plus 5 clones
yields 5, both ways, all the way through both census engines. -/
theorem carousel_clone_dedup (flags : List Bool) :
    countSlidesInCarousel (mkSlickCarousel flags) = (flags.filter (fun b => !b)).length
    ∧ staticIcatcherSlides (mkSlickCarousel flags) = (flags.filter (fun b => !b)).length
    ∧ countSlidesInCarousel
        (mkSlickCarousel (List.replicate 5 false ++ List.replicate 5 true)) = 5
    ∧ staticIcatcherSlides
        (mkSlickCarousel (List.replicate 5 false ++ List.replicate 5 true)) = 5
    ∧ (renderedCensus (mkDoc (mkSlickCarousel
        (List.replicate 5 false ++ List.replicate 5 true)))).carousels.slidesPerCarousel = [5]
    ∧ (staticCensus (mkDoc (mkSlickCarousel
        (List.replicate 5 false ++ List.replicate 5 true)))).carousels.slidesPerCarousel = [5] :=
  ⟨countSlides_mkSlick flags, staticSlides_mkSlick flags,
   by decide, by decide, by decide, by decide⟩

/-- Claim C7, counterexample: the claim says rendered
`testimonials.itemsPerBlock` counts only real slides (distinct original
indices), but for a widget with slides of indices 0, 1 and a duplicate of 0
the census reports 3 items, while the dedup logic of `countSlidesInCarousel`
(which the claim describes) yields 2. -/
theorem testimonial_dedup_cex :
    (renderedCensus (mkDoc (mkTestimonial dupSlides))).testimonials.itemsPerBlock = [3]
    ∧ countSlidesInCarousel (mkTestimonial dupSlides) = 2
    ∧ (3 : Nat) ≠ 2 :=
  ⟨by decide, by decide, by decide⟩

/-- Claim C7, amended: each rendered `testimonials.itemsPerBlock` entry counts
every `swiper-slide` in the wrapper, duplicates included; the
distinct-original-index dedup the claim describes lives in
`countSlidesInCarousel` (feeding the carousels census), not in the
testimonials census. -/
theorem testimonial_count_amended (slides : List (Option String × Bool)) :
    (renderedCensus (mkDoc (mkTestimonial slides))).testimonials.itemsPerBlock = [slides.length]
    ∧ countSlidesInCarousel (mkTestimonial slides)
        = (if (slides.filterMap Prod.fst).length ≠ 0
           then (slides.filterMap Prod.fst).eraseDups.length
           else (slides.filter (fun p => !p.2)).length) :=
  ⟨rendered_items_all slides, countSlides_mkTestimonial slides⟩

/-- Claim C8: the sections thresholds are strict lower bounds — warn above 16,
bad above 24 — so 16 sections scores 100 with a good finding, 17 scores 90
(-10, warn) and 25 scores 82 (-18, bad). -/
theorem sections_boundary_tiers (c : ScoreInput) :
    getFinding (scoreAspCounts c) "sections" = some (sectionsFinding c.sections)
    ∧ (sectionsFinding c.sections).points
        = (if 24 < c.sections then (-18 : Int) else if 16 < c.sections then -10 else 0)
    ∧ (sectionsFinding c.sections).severity
        = (if 24 < c.sections then Severity.bad
           else if 16 < c.sections then Severity.warn else Severity.good)
    ∧ (scoreAspCounts (sectionsOnly 16)).overall.score = 100
    ∧ (scoreAspCounts (sectionsOnly 17)).overall.score = 90
    ∧ (scoreAspCounts (sectionsOnly 25)).overall.score = 82 := by
  refine ⟨getFinding_sections c, ?_, ?_, by decide, by decide, by decide⟩ <;>
    (unfold sectionsFinding
     by_cases h1 : c.sections > 24 <;> by_cases h2 : c.sections > 16 <;>
       simp [h1, h2])

/-- Claim C9: in both census engines the derived totals are sums of their
parts — `adSpace.total` is the sum of the four skyscraper positions,
`carousels.slidesTotal` the sum of `slidesPerCarousel`, and
`libraries.typesTotal` the sum of the four type counts (the testimonial item
total likewise); all counts are `Nat`, hence non-negative by construction. -/
theorem census_sum_invariants (doc : Elem) :
    ((renderedCensus doc).adSpace.total
        = (renderedCensus doc).adSpace.skyscraperLeft
          + (renderedCensus doc).adSpace.skyscraperRight
          + (renderedCensus doc).adSpace.skyscraperTop
          + (renderedCensus doc).adSpace.skyscraperBottom)
    ∧ (renderedCensus doc).carousels.slidesTotal
        = ((renderedCensus doc).carousels.slidesPerCarousel).sum
    ∧ (renderedCensus doc).libraries.typesTotal
        = (renderedCensus doc).libraries.types.news
          + (renderedCensus doc).libraries.types.products
          + (renderedCensus doc).libraries.types.video
          + (renderedCensus doc).libraries.types.sponsor
    ∧ (staticCensus doc).adSpace.total
        = (staticCensus doc).adSpace.skyscraperLeft
          + (staticCensus doc).adSpace.skyscraperRight
          + (staticCensus doc).adSpace.skyscraperTop
          + (staticCensus doc).adSpace.skyscraperBottom
    ∧ (staticCensus doc).carousels.slidesTotal
        = ((staticCensus doc).carousels.slidesPerCarousel).sum
    ∧ (staticCensus doc).libraries.typesTotal
        = (staticCensus doc).libraries.types.news
          + (staticCensus doc).libraries.types.products
          + (staticCensus doc).libraries.types.video
          + (staticCensus doc).libraries.types.sponsor
    ∧ (renderedCensus doc).testimonials.itemsTotal
        = ((renderedCensus doc).testimonials.itemsPerBlock).sum
    ∧ (staticCensus doc).testimonials.itemsTotal
        = ((staticCensus doc).testimonials.itemsPerBlock).sum := by
  refine ⟨rfl, ?_, rfl, rfl, ?_, rfl, ?_, ?_⟩ <;>
    exact (foldl_add_eq_sum _ 0).trans (Nat.zero_add _)

/-- Claim C10, counterexample: the claim says both endpoints reject every
target whose scheme is not http or https, but the `/api/audit` handler only
checks that the protocol starts with the string http, so the non-http scheme
`httpx:` passes its validation and reaches the network call. -/
theorem url_validation_cex :
    auditValidate "httpx://x" = .networkCall "httpx://x"
    ∧ jsUrlParse "httpx://x" = some { protocol := "httpx:" }
    ∧ ("httpx:" : String) ≠ "http:"
    ∧ ("httpx:" : String) ≠ "https:" :=
  ⟨by decide, by decide, by decide, by decide⟩

/-- Claim C10, amended: both endpoints accept http and https targets and
reject unparseable or empty targets with a 400 before any network call;
`/api/asp-recommendations` rejects every scheme other than exactly http or
https, while `/api/audit` lets any protocol that starts with the string http
through (for example `httpx://x`), rejecting the rest. -/
theorem url_validation_amended (s : String) :
    auditValidate "http://x" = .networkCall "http://x"
    ∧ aspRecValidate "http://x" = .networkCall "http://x"
    ∧ auditValidate "https://x" = .networkCall "https://x"
    ∧ aspRecValidate "https://x" = .networkCall "https://x"
    ∧ auditValidate "ftp://x" = .reject400 "URL must be http/https"
    ∧ aspRecValidate "ftp://x" = .reject400 "URL must be http/https"
    ∧ auditValidate "not a url" = .reject400 "Invalid url"
    ∧ aspRecValidate "not a url" = .reject400 "Invalid url"
    ∧ auditValidate "" = .reject400 "Invalid url"
    ∧ aspRecValidate "" = .reject400 "Invalid url"
    ∧ (jsUrlParse s = none →
        auditValidate s = .reject400 "Invalid url"
        ∧ aspRecValidate s = .reject400 "Invalid url")
    ∧ (∀ u : JsUrl, jsUrlParse s = some u →
        u.protocol ∉ (["http:", "https:"] : List String) →
        aspRecValidate s = .reject400 "URL must be http/https")
    ∧ (∀ u : JsUrl, jsUrlParse s = some u →
        strStartsWith u.protocol "http" = true →
        auditValidate s = .networkCall s) := by
  refine ⟨by decide, by decide, by decide, by decide, by decide, by decide, by decide,
    by decide, by decide, by decide, ?_, ?_, ?_⟩
  · intro h
    exact validate_reject_unparseable s h
  · intro u h hp
    exact aspRec_reject_scheme s u h hp
  · intro u h hp
    exact audit_accepts_http s u h hp

/-- Claim C10, witness: the amended theorem applied at concrete targets — a
non-special unknown scheme is rejected by the census endpoint, an unparseable
string is rejected by the audit endpoint, and an https target passes. -/
theorem url_validation_amended_witness :
    aspRecValidate "gopher://x" = .reject400 "URL must be http/https"
    ∧ auditValidate "nonsense" = .reject400 "Invalid url"
    ∧ auditValidate "https://example.org" = .networkCall "https://example.org" := by
  have h1 := url_validation_amended "gopher://x"
  have h2 := url_validation_amended "nonsense"
  have h3 := url_validation_amended "https://example.org"
  refine ⟨?_, ?_, ?_⟩
  · exact h1.2.2.2.2.2.2.2.2.2.2.2.1 { protocol := "gopher:" } (by decide) (by decide)
  · exact (h2.2.2.2.2.2.2.2.2.2.2.1 (by decide)).1
  · exact h3.2.2.2.2.2.2.2.2.2.2.2.2 { protocol := "https:" } (by decide) (by decide)

end Healthcheck
